import Mathlib

/-
Verification development for the cifssrv VFS mediation layer (fs/cifssrv/vfs.c).

The C functions are shallowly embedded as pure Lean functions.  Every call the
code makes to an external collaborator (the fid table, the byte-range lock
probe, the oplock break routine, the kernel VFS primitives, path lookup) is
modelled by an oracle field of an environment structure, and every such call
additionally records an event in an execution trace, so that ordering and
absence of calls can be stated.  Error codes are the C errno values, returned
negated exactly as the source does.
-/

/-! ## Error numbers (linux errno values; the code returns their negations) -/

def ENOENT : Int := 2
def EAGAIN : Int := 11
def ENOMEM : Int := 12
def EISDIR : Int := 21
def EINVAL : Int := 22
def ENOTEMPTY : Int := 39

/-! ## Mode and iattr bit constants (linux stat.h / fs.h)

`umode_t` is 16 bits wide, so a C expression `m & ~MASK` is embedded as
`m &&& NOT_MASK` where `NOT_MASK` is the 16-bit complement of `MASK`.
`ia_valid` is a 32-bit field; `~ATTR_MODE` there is `0xFFFFFFFE`. -/

def S_IFMT : Nat := 0o170000
def S_IFDIR : Nat := 0o40000
def S_IFLNK : Nat := 0o120000
def S_IALLUGO : Nat := 0o7777
def NOT_S_IALLUGO : Nat := 0o170000
def S_ISUID : Nat := 0o4000
def NOT_S_ISUID : Nat := 0o173777
def S_ISGID : Nat := 0o2000
def NOT_S_ISGID : Nat := 0o175777
def S_IXGRP : Nat := 0o10

def ATTR_MODE : Nat := 1
def NOT_ATTR_MODE : Nat := 0xFFFFFFFE
def ATTR_UID : Nat := 2
def ATTR_GID : Nat := 4
def ATTR_SIZE : Nat := 8
def ATTR_CTIME : Nat := 64
def ATTR_KILL_SUID : Nat := 2048
def ATTR_KILL_SGID : Nat := 4096
def ATTR_KILL_PRIV : Nat := 16384

/-! ## Data model -/

/-- The inode attributes this layer reads: `i_mode`, `i_uid`, `i_gid`, `i_size`. -/
structure Inode where
  i_mode : Nat
  i_uid : Nat
  i_gid : Nat
  i_size : Int
  deriving DecidableEq, Repr

/-- An entry of the fid table (`struct cifssrv_file`): its inode, the dentry of
`filp->f_path.dentry` and of that dentry's parent (used by rename-by-fid).
Dentries are modelled by numeric identifiers. -/
structure FileHandle where
  inode : Inode
  dentryId : Nat
  parentId : Nat
  deriving DecidableEq, Repr

/-- The mutable fields of `struct iattr` that `smb_check_attrs` and
`smb_vfs_setattr` touch. -/
structure Iattr where
  ia_valid : Nat
  ia_mode : Nat
  ia_uid : Nat
  ia_gid : Nat
  ia_size : Int
  deriving DecidableEq, Repr

/-- Paths are character lists; the code only inspects them with `strrchr`. -/
abbrev FsPath := List Char

/-- One observable call to an external collaborator, in program order. -/
inductive Ev where
  | resolveFid (fid : Nat)
  | lockCheck (start stop : Int) (wr : Bool)
  | breakLease
  | alloc
  | vfsRead
  | vfsWrite
  | fsync
  | pathGet (w : Nat)
  | pathPut (w : Nat)
  | lockRename
  | unlockRename
  | dget (d : Nat)
  | dput (d : Nat)
  | vfsRename
  | vfsTruncate
  | getWriteAccess
  | putWriteAccess
  | locksVerifyTruncate
  | notifyChange (a : Iattr)
  | syncInode
  | xattrProbe
  | xattrFill
  deriving DecidableEq, Repr

/-- Number of occurrences of an event in a trace. -/
def countEv (e : Ev) : List Ev → Nat
  | [] => 0
  | x :: t => (if x = e then 1 else 0) + countEv e t

/-- The subsequence of rename-directory-lock events of a trace. -/
def lockEvs : List Ev → List Ev
  | [] => []
  | x :: t =>
    if x = Ev.lockRename ∨ x = Ev.unlockRename then x :: lockEvs t else lockEvs t

/-- Whether a trace contains a backend attribute-change call. -/
def hasNotify : List Ev → Bool
  | [] => false
  | Ev.notifyChange _ :: _ => true
  | _ :: t => hasNotify t

/-! ## smb_vfs_read / smb_vfs_write -/

/-- Oracle environment for `smb_vfs_read`: the fid table, the result of
`smb_vfs_locks_mandatory_area start stop isWrite`, whether `vmalloc`
succeeds, and the byte count `vfs_read` returns. -/
structure ReadEnv where
  fidtable : Nat → Option FileHandle
  lockCheck : Int → Int → Bool → Int
  vmallocOk : Bool
  vfsRead : Int

/-- Embedding of `smb_vfs_read` (vfs.c).  Returns the C return value and the
trace of collaborator calls. -/
def smb_vfs_read (env : ReadEnv) (fid : Nat) (count : Nat) (pos : Int) :
    Int × List Ev :=
  if count = 0 then (0, [])
  else
    match env.fidtable fid with
    | none => (-ENOENT, [Ev.resolveFid fid])
    | some fp =>
      if fp.inode.i_mode &&& S_IFMT = S_IFDIR then
        (-EISDIR, [Ev.resolveFid fid])
      else
        let ret := env.lockCheck pos (pos + (count : Int) - 1) false
        let t0 := [Ev.resolveFid fid, Ev.lockCheck pos (pos + (count : Int) - 1) false]
        if ret = -EAGAIN then (ret, t0)
        else if env.vmallocOk = false then (-ENOENT, t0 ++ [Ev.alloc])
        else (env.vfsRead, t0 ++ [Ev.alloc, Ev.vfsRead])

/-- Oracle environment for `smb_vfs_write`: fid table, lock probe, the global
`oplocks_enable` flag, and the results of `vfs_write` and `vfs_fsync_range`. -/
structure WriteEnv where
  fidtable : Nat → Option FileHandle
  lockCheck : Int → Int → Bool → Int
  oplocksEnable : Bool
  vfsWrite : Int
  vfsFsync : Int

/-- Embedding of `smb_vfs_write` (vfs.c).  Returns the C return value and the
trace of collaborator calls. -/
def smb_vfs_write (env : WriteEnv) (fid : Nat) (count : Nat) (pos : Int)
    (sync : Bool) : Int × List Ev :=
  match env.fidtable fid with
  | none => (-ENOENT, [Ev.resolveFid fid])
  | some _fp =>
    let err := env.lockCheck pos (pos + (count : Int) - 1) true
    let t0 := [Ev.resolveFid fid, Ev.lockCheck pos (pos + (count : Int) - 1) true]
    if err = -EAGAIN then (err, t0)
    else
      let t1 := t0 ++ (if env.oplocksEnable then [Ev.breakLease] else [])
      let w := env.vfsWrite
      let t2 := t1 ++ [Ev.vfsWrite]
      if w < 0 then (w, t2)
      else if sync then (env.vfsFsync, t2 ++ [Ev.fsync])
      else (0, t2)

/-! ## smb_check_attrs / smb_vfs_setattr -/

/-- Embedding of `smb_check_attrs` (vfs.c): mask a requested mode change down
to permission bits, and revoke setuid/setgid when ownership changes on a
non-directory. -/
def smb_check_attrs (inode : Inode) (attrs : Iattr) : Iattr :=
  let a1 :=
    if attrs.ia_valid &&& ATTR_MODE ≠ 0 then
      { attrs with
        ia_mode := (attrs.ia_mode &&& S_IALLUGO) ||| (inode.i_mode &&& NOT_S_IALLUGO) }
    else attrs
  if (¬ inode.i_mode &&& S_IFMT = S_IFDIR) ∧
      ((a1.ia_valid &&& ATTR_UID ≠ 0 ∧ a1.ia_uid ≠ inode.i_uid) ∨
       (a1.ia_valid &&& ATTR_GID ≠ 0 ∧ a1.ia_gid ≠ inode.i_gid)) then
    let a2 := { a1 with ia_valid := a1.ia_valid ||| ATTR_KILL_PRIV }
    if a2.ia_valid &&& ATTR_MODE ≠ 0 then
      let a3 := { a2 with ia_mode := a2.ia_mode &&& NOT_S_ISUID }
      if a3.ia_mode &&& S_IXGRP ≠ 0 then
        { a3 with ia_mode := a3.ia_mode &&& NOT_S_ISGID }
      else a3
    else
      { a2 with ia_valid := a2.ia_valid ||| (ATTR_KILL_SUID ||| ATTR_KILL_SGID) }
  else a1

/-- Oracle environment for `smb_vfs_setattr`: path lookup yields the target
inode, the fid table, and the results of `get_write_access`,
`locks_verify_truncate` and `notify_change`. -/
structure SetattrEnv where
  kernPath : FsPath → Except Int Inode
  fidtable : Nat → Option FileHandle
  getWriteAccess : Int
  locksVerifyTruncate : Int
  notifyChange : Int

/-- The part of `smb_vfs_setattr` following inode resolution (vfs.c): symlink
mode masking, the empty-change fast path, `smb_check_attrs`, the ATTR_SIZE
write-access and truncate-lock validation, and the `notify_change` call with
ATTR_CTIME added. -/
def setattrBody (env : SetattrEnv) (inode : Inode) (attrs : Iattr) :
    Int × List Ev :=
  let a1 :=
    if inode.i_mode &&& S_IFMT = S_IFLNK then
      { attrs with ia_valid := attrs.ia_valid &&& NOT_ATTR_MODE }
    else attrs
  if a1.ia_valid = 0 then (0, [])
  else
    let a2 := smb_check_attrs inode a1
    let a3 := { a2 with ia_valid := a2.ia_valid ||| ATTR_CTIME }
    if a2.ia_valid &&& ATTR_SIZE ≠ 0 then
      if env.getWriteAccess ≠ 0 then (env.getWriteAccess, [Ev.getWriteAccess])
      else if env.locksVerifyTruncate ≠ 0 then
        (env.locksVerifyTruncate,
         [Ev.getWriteAccess, Ev.locksVerifyTruncate, Ev.putWriteAccess])
      else
        let err := env.notifyChange
        let t0 := [Ev.getWriteAccess, Ev.locksVerifyTruncate,
                   Ev.notifyChange a3, Ev.putWriteAccess]
        if err = 0 then (0, t0 ++ [Ev.syncInode]) else (err, t0)
    else
      let err := env.notifyChange
      if err = 0 then (0, [Ev.notifyChange a3, Ev.syncInode])
      else (err, [Ev.notifyChange a3])

/-- Embedding of `smb_vfs_setattr` (vfs.c).  `name = some p` is the by-path
variant (any lookup failure is reported as -ENOENT, as in the source),
`name = none` resolves the fid. -/
def smb_vfs_setattr (env : SetattrEnv) (name : Option FsPath) (fid : Nat)
    (attrs : Iattr) : Int × List Ev :=
  match name with
  | some p =>
    match env.kernPath p with
    | Except.error _ => (-ENOENT, [])
    | Except.ok inode =>
      let r := setattrBody env inode attrs
      (r.1, Ev.pathGet 0 :: r.2 ++ [Ev.pathPut 0])
  | none =>
    match env.fidtable fid with
    | none => (-ENOENT, [Ev.resolveFid fid])
    | some fp =>
      let r := setattrBody env fp.inode attrs
      (r.1, Ev.resolveFid fid :: r.2)

/-! ## smb_vfs_truncate -/

/-- Oracle environment for `smb_vfs_truncate`: by-path lookup, fid table, the
global `oplocks_enable` flag, the lock probe and the `vfs_truncate` result. -/
structure TruncEnv where
  kernPath : FsPath → Except Int Unit
  fidtable : Nat → Option FileHandle
  oplocksEnable : Bool
  lockCheck : Int → Int → Bool → Int
  vfsTruncate : Int

/-- Embedding of `smb_vfs_truncate` (vfs.c).  The by-path variant truncates
directly; the by-fid variant either breaks level-II oplocks (when enabled) or
probes the byte range between the old and the new size for a write-lock
conflict. -/
def smb_vfs_truncate (env : TruncEnv) (name : Option FsPath) (fid : Nat)
    (size : Int) : Int × List Ev :=
  match name with
  | some p =>
    match env.kernPath p with
    | Except.error e => (e, [])
    | Except.ok _ => (env.vfsTruncate, [Ev.pathGet 0, Ev.vfsTruncate, Ev.pathPut 0])
  | none =>
    match env.fidtable fid with
    | none => (-ENOENT, [Ev.resolveFid fid])
    | some fp =>
      if env.oplocksEnable then
        (env.vfsTruncate, [Ev.resolveFid fid, Ev.breakLease, Ev.vfsTruncate])
      else
        let isize := fp.inode.i_size
        let lo := if size < isize then size else isize
        let hi := if size < isize then isize - 1 else size - 1
        let chk := env.lockCheck lo hi true
        if chk = -EAGAIN then
          (chk, [Ev.resolveFid fid, Ev.lockCheck lo hi true])
        else
          (env.vfsTruncate,
           [Ev.resolveFid fid, Ev.lockCheck lo hi true, Ev.vfsTruncate])

/-! ## smb_vfs_getxattr -/

/-- Oracle environment for `smb_vfs_getxattr`: the stored value length reported
by the probing `vfs_getxattr(dentry, name, NULL, 0)` call, and the result of
the filling call. -/
structure XattrEnv where
  probeLen : Int
  fillResult : Int

/-- Embedding of `smb_vfs_getxattr` (vfs.c): probe the value length first, fail
with -ENOMEM if it exceeds the caller's buffer, otherwise read the value into
the buffer. -/
def smb_vfs_getxattr (env : XattrEnv) (bufLen : Nat) : Int × List Ev :=
  let xattrLen := env.probeLen
  if xattrLen ≤ 0 then (xattrLen, [Ev.xattrProbe])
  else if xattrLen > (bufLen : Int) then (-ENOMEM, [Ev.xattrProbe])
  else (env.fillResult, [Ev.xattrProbe, Ev.xattrFill])

/-! ## smb_vfs_rename -/

/-- Embedding of `strrchr(s, sep)`: the suffix of `s` beginning at the LAST
slash (the pointer `strrchr` returns), or `none` when `s` contains no slash.
A slash found in the tail wins over the head character, exactly as `strrchr`
returns the rightmost occurrence. -/
def strrchrSuffix : List Char → Option (List Char)
  | [] => none
  | c :: rest =>
    match strrchrSuffix rest with
    | some r => some r
    | none => if c = '/' then some (c :: rest) else none

/-- The C leaf extraction (vfs.c): `p = strrchr(path, sep)` followed by the
check `p && p[1] != NUL`, yielding `p + 1`.  The leaf exists only when the
path contains a slash and the character right after the last slash exists;
in particular every trailing-slash path is rejected, also when earlier
slashes are present. -/
def afterLastSlash (s : List Char) : Option (List Char) :=
  match strrchrSuffix s with
  | some (_ :: r) => if r = [] then none else some r
  | _ => none

/-- Oracle environment for `smb_vfs_rename`: fid table, `kern_path` with
LOOKUP_PARENT (yielding the parent dentry), `lock_rename` (yielding the trap
dentry, i.e. the common ancestor, if any), `lookup_one_len`, whether a dentry
is positive, and the `vfs_rename` result. -/
structure RenameEnv where
  fidtable : Nat → Option FileHandle
  kernPath : FsPath → Except Int Nat
  lockRename : Nat → Nat → Option Nat
  lookupOne : FsPath → Nat → Except Int Nat
  hasInode : Nat → Bool
  vfsRename : Int

/-- How the source dentry is obtained under the rename lock: looked up by leaf
name, or taken (with `dget`) from the open file of the fid. -/
inductive RenSrc where
  | byName (leaf : FsPath)
  | byFid (dentry : Nat)
  deriving DecidableEq, Repr

def RenSrc.nameBased : RenSrc → Bool
  | RenSrc.byName _ => true
  | RenSrc.byFid _ => false

/-- The `out2` release ladder of `smb_vfs_rename`: `unlock_rename`, then
`path_put(&newpath_p)`, then (by-name case only) `path_put(&oldpath_p)`. -/
def renameOut2 (nameBased : Bool) : List Ev :=
  Ev.unlockRename :: Ev.pathPut 1 ::
    (if nameBased then [Ev.pathPut 0] else [])

/-- The part of `smb_vfs_rename` from `lock_rename` onwards (vfs.c): obtain the
source dentry, reject a negative source, reject source = trap with -EINVAL,
look up the destination, reject destination = trap with -ENOTEMPTY, call
`vfs_rename`, and run the `out4`/`out3`/`out2` release ladders. -/
def renameLocked (env : RenameEnv) (src : RenSrc) (newname : FsPath)
    (dold_p dnew_p : Nat) : Int × List Ev :=
  let trap := env.lockRename dold_p dnew_p
  let out2 := renameOut2 src.nameBased
  let doldR : Except Int Nat :=
    match src with
    | RenSrc.byName leaf => env.lookupOne leaf dold_p
    | RenSrc.byFid d => Except.ok d
  match doldR with
  | Except.error e => (e, Ev.lockRename :: out2)
  | Except.ok dold =>
    let out3 := Ev.dput dold :: out2
    if env.hasInode dold = false then
      (-ENOENT, Ev.lockRename :: Ev.dget dold :: out3)
    else if trap = some dold then
      (-EINVAL, Ev.lockRename :: Ev.dget dold :: out3)
    else
      match env.lookupOne newname dnew_p with
      | Except.error e => (e, Ev.lockRename :: Ev.dget dold :: out3)
      | Except.ok dnew =>
        let out4 := Ev.dput dnew :: out3
        if trap = some dnew then
          (-ENOTEMPTY, Ev.lockRename :: Ev.dget dold :: Ev.dget dnew :: out4)
        else
          (env.vfsRename,
           Ev.lockRename :: Ev.dget dold :: Ev.dget dnew :: Ev.vfsRename :: out4)

/-- Embedding of `smb_vfs_rename` (vfs.c).  `absOld = some p` is the normal
rename with a source path; `absOld = none` renames the open file of `oldfid`.
Leaf names are extracted with `strrchr`; an inextractable source leaf is
rejected with -ENOENT and an inextractable destination leaf with -ENOMEM,
both before `lock_rename`. -/
def smb_vfs_rename (env : RenameEnv) (absOld : Option FsPath) (absNew : FsPath)
    (oldfid : Nat) : Int × List Ev :=
  match absOld with
  | some pOld =>
    match afterLastSlash pOld with
    | none => (-ENOENT, [])
    | some oldname =>
      match env.kernPath pOld with
      | Except.error _ => (-ENOENT, [])
      | Except.ok dold_p =>
        match afterLastSlash absNew with
        | none => (-ENOMEM, [Ev.pathGet 0, Ev.pathPut 0])
        | some newname =>
          match env.kernPath absNew with
          | Except.error e => (e, [Ev.pathGet 0, Ev.pathPut 0])
          | Except.ok dnew_p =>
            let r := renameLocked env (RenSrc.byName oldname) newname dold_p dnew_p
            (r.1, Ev.pathGet 0 :: Ev.pathGet 1 :: r.2)
  | none =>
    match env.fidtable oldfid with
    | none => (-ENOENT, [Ev.resolveFid oldfid])
    | some fp =>
      match afterLastSlash absNew with
      | none => (-ENOMEM, [Ev.resolveFid oldfid])
      | some newname =>
        match env.kernPath absNew with
        | Except.error e => (e, [Ev.resolveFid oldfid])
        | Except.ok dnew_p =>
          let r := renameLocked env (RenSrc.byFid fp.dentryId) newname
                     fp.parentId dnew_p
          (r.1, Ev.resolveFid oldfid :: Ev.pathGet 1 :: r.2)

/-! ## Concrete instances used by the witness theorems -/

/-- A plain regular-file handle (mode 0644). -/
def regFile : FileHandle := ⟨⟨0o100644, 0, 0, 0⟩, 1, 2⟩

/-- A directory handle. -/
def dirFile : FileHandle := ⟨⟨0o40755, 0, 0, 0⟩, 1, 2⟩

/-- Write environment whose lock probe always reports a conflict. -/
def wEnvConflict : WriteEnv :=
  { fidtable := fun _ => some regFile
    lockCheck := fun _ _ _ => -EAGAIN
    oplocksEnable := true
    vfsWrite := 1024
    vfsFsync := 0 }

/-- Read environment that resolves every fid to a directory. -/
def rEnvDir : ReadEnv :=
  { fidtable := fun _ => some dirFile
    lockCheck := fun _ _ _ => 0
    vmallocOk := true
    vfsRead := 0 }

/-- Getxattr environment with a 10-byte stored value. -/
def xEnvBig : XattrEnv := ⟨10, 10⟩

/-! ## Theorems -/

/-- Claim C10: a read with count 0 returns 0 immediately: the fid is not
resolved, no lock check runs, no buffer is allocated and the backend read is
not invoked, for every environment (in particular when the fid is stale or
unknown). -/
theorem read_zero_count_noop (env : ReadEnv) (fid : Nat) (pos : Int) :
    smb_vfs_read env fid 0 pos = (0, []) := rfl

/-- Claim C8: a read whose resolved target is a directory fails with -EISDIR
and its trace is exactly the fid resolution: there is no backend read, no
byte-range lock check and no buffer allocation (so the directory check
precedes both). -/
theorem read_directory_rejected (env : ReadEnv) (fid count : Nat) (pos : Int)
    (fp : FileHandle) (hc : count ≠ 0) (hfp : env.fidtable fid = some fp)
    (hdir : fp.inode.i_mode &&& S_IFMT = S_IFDIR) :
    (smb_vfs_read env fid count pos).1 = -EISDIR ∧
    (smb_vfs_read env fid count pos).2 = [Ev.resolveFid fid] ∧
    Ev.vfsRead ∉ (smb_vfs_read env fid count pos).2 ∧
    Ev.alloc ∉ (smb_vfs_read env fid count pos).2 := by
  simp [smb_vfs_read, hc, hfp, hdir]

/-- Claim C8 witness: reading 16 bytes from fid 3 when fid 3 is a directory. -/
theorem read_directory_rejected_instance :
    (smb_vfs_read rEnvDir 3 16 0).1 = -EISDIR ∧
    (smb_vfs_read rEnvDir 3 16 0).2 = [Ev.resolveFid 3] ∧
    Ev.vfsRead ∉ (smb_vfs_read rEnvDir 3 16 0).2 ∧
    Ev.alloc ∉ (smb_vfs_read rEnvDir 3 16 0).2 :=
  read_directory_rejected rEnvDir 3 16 0 dirFile (by decide) rfl (by decide)

/-- Claim C1: in `smb_vfs_write` the byte-range lock check with write intent is
the second traced call, before any lease break and before the backend write;
and when it reports a conflict the call returns -EAGAIN with the trace ending
at the lock check, so no lease-revocation call is made and the backend write
never runs (zero bytes written). -/
theorem write_lock_gate_before_lease_and_write (env : WriteEnv)
    (fid count : Nat) (pos : Int) (sync : Bool) (fp : FileHandle)
    (hfp : env.fidtable fid = some fp) :
    (∃ rest, (smb_vfs_write env fid count pos sync).2
        = Ev.resolveFid fid
            :: Ev.lockCheck pos (pos + (count : Int) - 1) true :: rest)
    ∧ (env.lockCheck pos (pos + (count : Int) - 1) true = -EAGAIN →
        (smb_vfs_write env fid count pos sync).1 = -EAGAIN ∧
        (smb_vfs_write env fid count pos sync).2
          = [Ev.resolveFid fid,
             Ev.lockCheck pos (pos + (count : Int) - 1) true]) := by
  constructor
  · simp only [smb_vfs_write, hfp]
    split
    · exact ⟨[], rfl⟩
    · split
      · exact ⟨(if env.oplocksEnable = true then [Ev.breakLease] else [])
          ++ [Ev.vfsWrite], by simp⟩
      · split
        · exact ⟨(if env.oplocksEnable = true then [Ev.breakLease] else [])
            ++ [Ev.vfsWrite, Ev.fsync], by simp⟩
        · exact ⟨(if env.oplocksEnable = true then [Ev.breakLease] else [])
            ++ [Ev.vfsWrite], by simp⟩
  · intro h
    simp [smb_vfs_write, hfp, h]

/-- Claim C1 witness: write(id=7, bytes=1024, offset=0, durable) against an
environment whose lock probe reports a conflict. -/
theorem write_lock_gate_conflict_instance :
    (∃ rest, (smb_vfs_write wEnvConflict 7 1024 0 true).2
        = Ev.resolveFid 7
            :: Ev.lockCheck 0 (0 + ((1024 : Nat) : Int) - 1) true :: rest)
    ∧ (wEnvConflict.lockCheck 0 (0 + ((1024 : Nat) : Int) - 1) true = -EAGAIN →
        (smb_vfs_write wEnvConflict 7 1024 0 true).1 = -EAGAIN ∧
        (smb_vfs_write wEnvConflict 7 1024 0 true).2
          = [Ev.resolveFid 7,
             Ev.lockCheck 0 (0 + ((1024 : Nat) : Int) - 1) true]) :=
  write_lock_gate_before_lease_and_write wEnvConflict 7 1024 0 true regFile rfl

/-- Claim C9: when the stored xattr value is longer than the caller's buffer,
`smb_vfs_getxattr` fails with -ENOMEM after the probing call only: the filling
call that writes into the caller's buffer never runs, so no partial value is
returned. -/
theorem getxattr_buffer_too_small (env : XattrEnv) (bufLen : Nat)
    (hpos : 0 < env.probeLen) (hbig : (bufLen : Int) < env.probeLen) :
    (smb_vfs_getxattr env bufLen).1 = -ENOMEM ∧
    (smb_vfs_getxattr env bufLen).2 = [Ev.xattrProbe] ∧
    Ev.xattrFill ∉ (smb_vfs_getxattr env bufLen).2 := by
  have h1 : ¬ env.probeLen ≤ 0 := not_le.mpr hpos
  simp [smb_vfs_getxattr, h1, hbig]

/-- Claim C9 witness: a 10-byte value against a 4-byte caller buffer. -/
theorem getxattr_buffer_too_small_instance :
    (smb_vfs_getxattr xEnvBig 4).1 = -ENOMEM ∧
    (smb_vfs_getxattr xEnvBig 4).2 = [Ev.xattrProbe] ∧
    Ev.xattrFill ∉ (smb_vfs_getxattr xEnvBig 4).2 :=
  getxattr_buffer_too_small xEnvBig 4 (by decide) (by decide)

/-! ## Bitwise helper lemmas -/

/-- AND distributes over OR on naturals. -/
theorem lor_land_distrib (a b c : Nat) :
    (a ||| b) &&& c = (a &&& c) ||| (b &&& c) := by
  refine Nat.eq_of_testBit_eq fun i => ?_
  simp [Nat.testBit_land, Nat.testBit_lor, Bool.and_or_distrib_right]

/-- An OR is nonzero when its left operand is. -/
theorem lor_ne_zero_left (a b : Nat) (h : a ≠ 0) : a ||| b ≠ 0 := by
  intro hz
  apply h
  refine Nat.eq_of_testBit_eq fun i => ?_
  have hb := congrArg (fun n => Nat.testBit n i) hz
  simp only [Nat.testBit_lor, Nat.zero_testBit, Bool.or_eq_false_iff] at hb
  simp [hb.1, Nat.zero_testBit]

/-- An OR is nonzero when its right operand is. -/
theorem lor_ne_zero_right (a b : Nat) (h : b ≠ 0) : a ||| b ≠ 0 := by
  rw [Nat.lor_comm]
  exact lor_ne_zero_left b a h

/-- A flag that survives the left operand of an OR survives the OR. -/
theorem land_flag_lor_left (x c f : Nat) (h : x &&& f ≠ 0) :
    (x ||| c) &&& f ≠ 0 := by
  rw [lor_land_distrib]
  exact lor_ne_zero_left _ _ h

/-- A flag present in the right operand of an OR survives the OR. -/
theorem land_flag_lor_right (x c f : Nat) (h : c &&& f ≠ 0) :
    (x ||| c) &&& f ≠ 0 := by
  rw [lor_land_distrib]
  exact lor_ne_zero_right _ _ h

/-- Two successive constant masks combine. -/
theorem land_land_const (x c1 c2 c3 : Nat) (h : c1 &&& c2 = c3) :
    (x &&& c1) &&& c2 = x &&& c3 := by
  rw [Nat.land_assoc, h]

/-! ## Claim C5 -/

/-- Non-directory inode whose current mode includes group-execute (0710). -/
def gxInode : Inode := ⟨0o100710, 0, 0, 0⟩

/-- Ownership-changing request whose requested mode lacks group-execute but
carries the setgid bit. -/
def gxAttrs : Iattr := ⟨ATTR_MODE ||| ATTR_UID, 0o2700, 1, 0, 0⟩

/-- Ownership-changing request whose requested mode has group-execute and both
privilege bits set. -/
def revAttrs : Iattr := ⟨ATTR_MODE ||| ATTR_UID, 0o6710, 1, 0, 0⟩

/-- Claim C5 counterexample: the claim keys the setgid clearing to the CURRENT
mode including group-execute.  Here the current mode is 0710 (group-execute
set), ownership changes on a non-directory, mode is changed in the same
request to 02700 (setgid set, group-execute clear) — yet `smb_check_attrs`
keeps the setgid bit, because the code tests group-execute on the requested
mode, not the current one. -/
theorem check_attrs_current_gx_cex :
    gxInode.i_mode &&& S_IFMT ≠ S_IFDIR ∧
    (gxAttrs.ia_valid &&& ATTR_UID ≠ 0 ∧ gxAttrs.ia_uid ≠ gxInode.i_uid) ∧
    gxInode.i_mode &&& S_IXGRP ≠ 0 ∧
    gxAttrs.ia_valid &&& ATTR_MODE ≠ 0 ∧
    (smb_check_attrs gxInode gxAttrs).ia_mode &&& S_ISGID ≠ 0 := by
  decide

/-- Claim C5 (amended: the group-execute test is on the requested mode, not the
current one): when ownership (user or group) changes on a non-directory,
`smb_check_attrs` marks ATTR_KILL_PRIV; if the mode is changed in the same
request the setuid bit is force-cleared and, when the requested mode includes
group-execute, the setgid bit is cleared as well; if the mode is not being
changed, the mode is left alone and both privilege bits are instead marked for
backend-side removal via ATTR_KILL_SUID and ATTR_KILL_SGID. -/
theorem check_attrs_chown_revokes_privileges (inode : Inode) (attrs : Iattr)
    (hND : ¬ inode.i_mode &&& S_IFMT = S_IFDIR)
    (hOwn : (attrs.ia_valid &&& ATTR_UID ≠ 0 ∧ attrs.ia_uid ≠ inode.i_uid) ∨
            (attrs.ia_valid &&& ATTR_GID ≠ 0 ∧ attrs.ia_gid ≠ inode.i_gid)) :
    ((smb_check_attrs inode attrs).ia_valid &&& ATTR_KILL_PRIV ≠ 0) ∧
    (attrs.ia_valid &&& ATTR_MODE ≠ 0 →
      (smb_check_attrs inode attrs).ia_mode &&& S_ISUID = 0 ∧
      (attrs.ia_mode &&& S_IXGRP ≠ 0 →
        (smb_check_attrs inode attrs).ia_mode &&& S_ISGID = 0)) ∧
    (attrs.ia_valid &&& ATTR_MODE = 0 →
      (smb_check_attrs inode attrs).ia_mode = attrs.ia_mode ∧
      (smb_check_attrs inode attrs).ia_valid &&& ATTR_KILL_SUID ≠ 0 ∧
      (smb_check_attrs inode attrs).ia_valid &&& ATTR_KILL_SGID ≠ 0) := by
  have hKP : (attrs.ia_valid ||| ATTR_KILL_PRIV) &&& ATTR_MODE
      = attrs.ia_valid &&& ATTR_MODE := by
    rw [lor_land_distrib, (by decide : ATTR_KILL_PRIV &&& ATTR_MODE = 0),
      Nat.or_zero]
  by_cases hM : attrs.ia_valid &&& ATTR_MODE = 0
  · have hres : smb_check_attrs inode attrs =
        { attrs with ia_valid :=
            (attrs.ia_valid ||| ATTR_KILL_PRIV)
              ||| (ATTR_KILL_SUID ||| ATTR_KILL_SGID) } := by
      simp [smb_check_attrs, hM, hND, hOwn, hKP]
    rw [hres]
    refine ⟨?_, ?_, ?_⟩
    · exact land_flag_lor_left _ _ _ (land_flag_lor_right _ _ _ (by decide))
    · intro hc
      exact absurd hM hc
    · intro _
      exact ⟨rfl, land_flag_lor_right _ _ _ (by decide),
        land_flag_lor_right _ _ _ (by decide)⟩
  · have hx : (((attrs.ia_mode &&& S_IALLUGO) ||| (inode.i_mode &&& NOT_S_IALLUGO))
        &&& NOT_S_ISUID) &&& S_IXGRP = attrs.ia_mode &&& S_IXGRP := by
      rw [land_land_const _ _ _ _ (by decide : NOT_S_ISUID &&& S_IXGRP = S_IXGRP),
        lor_land_distrib,
        land_land_const _ _ _ _ (by decide : S_IALLUGO &&& S_IXGRP = S_IXGRP),
        land_land_const _ _ _ _ (by decide : NOT_S_IALLUGO &&& S_IXGRP = 0),
        Nat.and_zero, Nat.or_zero]
    by_cases hgx : attrs.ia_mode &&& S_IXGRP = 0
    · have hres : smb_check_attrs inode attrs =
          { attrs with
            ia_valid := attrs.ia_valid ||| ATTR_KILL_PRIV,
            ia_mode :=
              ((attrs.ia_mode &&& S_IALLUGO) ||| (inode.i_mode &&& NOT_S_IALLUGO))
                &&& NOT_S_ISUID } := by
        simp [smb_check_attrs, hM, hND, hOwn, hKP, hx, hgx]
      rw [hres]
      refine ⟨?_, ?_, ?_⟩
      · exact land_flag_lor_right _ _ _ (by decide)
      · intro _
        refine ⟨?_, ?_⟩
        · rw [land_land_const _ _ _ _ (by decide : NOT_S_ISUID &&& S_ISUID = 0),
            Nat.and_zero]
        · intro hc
          exact absurd hgx hc
      · intro hc
        exact absurd hc hM
    · have hres : smb_check_attrs inode attrs =
          { attrs with
            ia_valid := attrs.ia_valid ||| ATTR_KILL_PRIV,
            ia_mode :=
              (((attrs.ia_mode &&& S_IALLUGO) ||| (inode.i_mode &&& NOT_S_IALLUGO))
                &&& NOT_S_ISUID) &&& NOT_S_ISGID } := by
        simp [smb_check_attrs, hM, hND, hOwn, hKP, hx, hgx]
      rw [hres]
      refine ⟨?_, ?_, ?_⟩
      · exact land_flag_lor_right _ _ _ (by decide)
      · intro _
        refine ⟨?_, fun _ => ?_⟩
        · rw [land_land_const _ _ _ _
              (by decide : NOT_S_ISUID &&& NOT_S_ISGID = 0o171777),
            land_land_const _ _ _ _ (by decide : (0o171777 : Nat) &&& S_ISUID = 0),
            Nat.and_zero]
        · rw [land_land_const _ _ _ _ (by decide : NOT_S_ISGID &&& S_ISGID = 0),
            Nat.and_zero]
      · intro hc
        exact absurd hc hM

/-- Claim C5 witness: chown with a simultaneous mode change to 06710
(setuid+setgid+group-execute) on a regular file: both privilege bits are
cleared and ATTR_KILL_PRIV is marked. -/
theorem check_attrs_chown_revokes_instance :
    ((smb_check_attrs gxInode revAttrs).ia_valid &&& ATTR_KILL_PRIV ≠ 0) ∧
    (revAttrs.ia_valid &&& ATTR_MODE ≠ 0 →
      (smb_check_attrs gxInode revAttrs).ia_mode &&& S_ISUID = 0 ∧
      (revAttrs.ia_mode &&& S_IXGRP ≠ 0 →
        (smb_check_attrs gxInode revAttrs).ia_mode &&& S_ISGID = 0)) ∧
    (revAttrs.ia_valid &&& ATTR_MODE = 0 →
      (smb_check_attrs gxInode revAttrs).ia_mode = revAttrs.ia_mode ∧
      (smb_check_attrs gxInode revAttrs).ia_valid &&& ATTR_KILL_SUID ≠ 0 ∧
      (smb_check_attrs gxInode revAttrs).ia_valid &&& ATTR_KILL_SGID ≠ 0) :=
  check_attrs_chown_revokes_privileges gxInode revAttrs (by decide)
    (Or.inl ⟨by decide, by decide⟩)

/-! ## Claim C6 -/

/-- The sanitizer `smb_check_attrs` never adds or removes ATTR_SIZE: it only ORs the
ATTR_KILL flags into `ia_valid`. -/
theorem check_attrs_size_preserved (inode : Inode) (a : Iattr) :
    (smb_check_attrs inode a).ia_valid &&& ATTR_SIZE = a.ia_valid &&& ATTR_SIZE := by
  have h1 : ∀ v : Nat,
      (v ||| ATTR_KILL_PRIV) &&& ATTR_SIZE = v &&& ATTR_SIZE := fun v => by
    rw [lor_land_distrib, (by decide : ATTR_KILL_PRIV &&& ATTR_SIZE = 0),
      Nat.or_zero]
  have h2 : ∀ v : Nat,
      (v ||| (ATTR_KILL_SUID ||| ATTR_KILL_SGID)) &&& ATTR_SIZE
        = v &&& ATTR_SIZE := fun v => by
    rw [lor_land_distrib,
      (by decide : (ATTR_KILL_SUID ||| ATTR_KILL_SGID) &&& ATTR_SIZE = 0),
      Nat.or_zero]
  simp only [smb_check_attrs]
  split_ifs <;> simp [h1, h2]

/-- A trace concatenation contains a `notify_change` call when either part
does. -/
theorem hasNotify_append (s t : List Ev) :
    hasNotify (s ++ t) = (hasNotify s || hasNotify t) := by
  induction s with
  | nil => simp [hasNotify]
  | cons x s ih => cases x <;> simp [hasNotify, ih]

/-- Size-validation failure aborts `setattrBody`: a nonzero error is returned
and `notify_change` is never reached. -/
theorem setattrBody_size_fail (env : SetattrEnv) (inode : Inode) (attrs : Iattr)
    (hsize : attrs.ia_valid &&& ATTR_SIZE ≠ 0)
    (hfail : env.getWriteAccess ≠ 0 ∨ env.locksVerifyTruncate ≠ 0) :
    (setattrBody env inode attrs).1 ≠ 0 ∧
    hasNotify (setattrBody env inode attrs).2 = false := by
  by_cases hlnk : inode.i_mode &&& S_IFMT = S_IFLNK
  · have hs1 : (attrs.ia_valid &&& NOT_ATTR_MODE) &&& ATTR_SIZE ≠ 0 := by
      rw [land_land_const _ _ _ _
        (by decide : NOT_ATTR_MODE &&& ATTR_SIZE = ATTR_SIZE)]
      exact hsize
    have hne1 : attrs.ia_valid &&& NOT_ATTR_MODE ≠ 0 := by
      intro h0
      exact hs1 (by rw [h0]; exact Nat.zero_and _)
    have hs2 : (smb_check_attrs inode
        { attrs with ia_valid := attrs.ia_valid &&& NOT_ATTR_MODE }).ia_valid
          &&& ATTR_SIZE ≠ 0 := by
      rw [check_attrs_size_preserved]
      exact hs1
    by_cases hgw : env.getWriteAccess = 0
    · have hlv : env.locksVerifyTruncate ≠ 0 := by
        rcases hfail with h | h
        · exact absurd hgw h
        · exact h
      simp [setattrBody, hlnk, hne1, hs2, hgw, hlv, hasNotify]
    · simp [setattrBody, hlnk, hne1, hs2, hgw, hasNotify]
  · have hne1 : attrs.ia_valid ≠ 0 := by
      intro h0
      exact hsize (by rw [h0]; exact Nat.zero_and _)
    have hs2 : (smb_check_attrs inode attrs).ia_valid &&& ATTR_SIZE ≠ 0 := by
      rw [check_attrs_size_preserved]
      exact hsize
    by_cases hgw : env.getWriteAccess = 0
    · have hlv : env.locksVerifyTruncate ≠ 0 := by
        rcases hfail with h | h
        · exact absurd hgw h
        · exact h
      simp [setattrBody, hlnk, hne1, hs2, hgw, hlv, hasNotify]
    · simp [setattrBody, hlnk, hne1, hs2, hgw, hasNotify]

/-- Claim C6: when a setattr request includes a size change (ATTR_SIZE) and
the size-change validation fails (`get_write_access` or
`locks_verify_truncate` returns an error), the whole change set is aborted: a
nonzero error is returned and the backend `notify_change` call never runs, so
no field of the request is applied. -/
theorem setattr_size_validation_aborts (env : SetattrEnv) (name : Option FsPath)
    (fid : Nat) (attrs : Iattr)
    (hsize : attrs.ia_valid &&& ATTR_SIZE ≠ 0)
    (hfail : env.getWriteAccess ≠ 0 ∨ env.locksVerifyTruncate ≠ 0) :
    (smb_vfs_setattr env name fid attrs).1 ≠ 0 ∧
    hasNotify (smb_vfs_setattr env name fid attrs).2 = false := by
  cases name with
  | none =>
    cases hfp : env.fidtable fid with
    | none =>
      refine ⟨?_, ?_⟩
      · simp [smb_vfs_setattr, hfp, ENOENT]
      · simp [smb_vfs_setattr, hfp, hasNotify]
    | some fp =>
      have hb := setattrBody_size_fail env fp.inode attrs hsize hfail
      refine ⟨?_, ?_⟩
      · simpa [smb_vfs_setattr, hfp] using hb.1
      · have := hb.2
        simp [smb_vfs_setattr, hfp, hasNotify, this]
  | some p =>
    cases hk : env.kernPath p with
    | error e =>
      refine ⟨?_, ?_⟩
      · simp [smb_vfs_setattr, hk, ENOENT]
      · simp [smb_vfs_setattr, hk, hasNotify]
    | ok inode =>
      have hb := setattrBody_size_fail env inode attrs hsize hfail
      refine ⟨?_, ?_⟩
      · simpa [smb_vfs_setattr, hk] using hb.1
      · have h2 := hb.2
        simp [smb_vfs_setattr, hk, hasNotify, hasNotify_append, h2]

/-- Setattr environment whose `get_write_access` fails with -EACCES-like -13. -/
def sEnvFail : SetattrEnv :=
  { kernPath := fun _ => Except.ok ⟨0o100644, 0, 0, 0⟩
    fidtable := fun _ => some regFile
    getWriteAccess := -13
    locksVerifyTruncate := 0
    notifyChange := 0 }

/-- A pure size-change request. -/
def sizeAttrs : Iattr := ⟨ATTR_SIZE, 0, 0, 0, 0⟩

/-- Claim C6 witness: a size change over fid 1 whose write-access acquisition
fails aborts without any `notify_change`. -/
theorem setattr_size_validation_aborts_instance :
    (smb_vfs_setattr sEnvFail none 1 sizeAttrs).1 ≠ 0 ∧
    hasNotify (smb_vfs_setattr sEnvFail none 1 sizeAttrs).2 = false :=
  setattr_size_validation_aborts sEnvFail none 1 sizeAttrs (by decide)
    (Or.inl (by decide))

/-! ## Claim C4 -/

/-- A 10-byte regular file. -/
def szFile : FileHandle := ⟨⟨0o100644, 0, 0, 10⟩, 1, 2⟩

/-- Truncate environment: leases disabled, fid resolves to the 10-byte file,
no lock conflict. -/
def tEnvProbe : TruncEnv :=
  { kernPath := fun _ => Except.ok ()
    fidtable := fun _ => some szFile
    oplocksEnable := false
    lockCheck := fun _ _ _ => 0
    vfsTruncate := 0 }

/-- Truncate environment for the by-path scenario. -/
def tEnvPath : TruncEnv :=
  { kernPath := fun _ => Except.ok ()
    fidtable := fun _ => none
    oplocksEnable := false
    lockCheck := fun _ _ _ => 0
    vfsTruncate := 0 }

/-- Truncate environment with leases (oplocks) enabled. -/
def tEnvLease : TruncEnv :=
  { kernPath := fun _ => Except.error (-ENOENT)
    fidtable := fun _ => some regFile
    oplocksEnable := true
    lockCheck := fun _ _ _ => 0
    vfsTruncate := 0 }

/-- Claim C4 counterexample: truncating the 10-byte file of fid 5 to size 4
with leases disabled.  The claim says the probed range spans from the larger
of (old size, new size) to the other minus one, i.e. [10, 3] here; the code
probes [4, 9] — from the SMALLER of the two sizes to the other minus one. -/
theorem truncate_probe_range_cex :
    Ev.lockCheck 4 9 true ∈ (smb_vfs_truncate tEnvProbe none 5 4).2 ∧
    Ev.lockCheck 10 3 true ∉ (smb_vfs_truncate tEnvProbe none 5 4).2 := by
  decide

/-- Claim C4 (amended: the probed range runs from the SMALLER of old and new
size to the other minus one): truncate by path calls the backend truncate
directly with no lock check and no lease break; truncate by handle with leases
disabled probes [min(old,new), max(old,new)-1] with write intent and stops on
conflict before truncating; truncate by handle with leases enabled breaks
conflicting leases and then truncates, with no lock probe. -/
theorem truncate_lock_lease_paths
    (envP envL envB : TruncEnv) (p : FsPath) (fid : Nat) (size : Int)
    (fp fpB : FileHandle)
    (hkp : envP.kernPath p = Except.ok ())
    (hfpL : envL.fidtable fid = some fp) (hopL : envL.oplocksEnable = false)
    (hfpB : envB.fidtable fid = some fpB) (hopB : envB.oplocksEnable = true) :
    (smb_vfs_truncate envP (some p) fid size
      = (envP.vfsTruncate, [Ev.pathGet 0, Ev.vfsTruncate, Ev.pathPut 0])) ∧
    ((envL.lockCheck (min size fp.inode.i_size)
        (max size fp.inode.i_size - 1) true = -EAGAIN →
      smb_vfs_truncate envL none fid size
        = (-EAGAIN, [Ev.resolveFid fid,
            Ev.lockCheck (min size fp.inode.i_size)
              (max size fp.inode.i_size - 1) true])) ∧
     (envL.lockCheck (min size fp.inode.i_size)
        (max size fp.inode.i_size - 1) true ≠ -EAGAIN →
      smb_vfs_truncate envL none fid size
        = (envL.vfsTruncate, [Ev.resolveFid fid,
            Ev.lockCheck (min size fp.inode.i_size)
              (max size fp.inode.i_size - 1) true,
            Ev.vfsTruncate]))) ∧
    (smb_vfs_truncate envB none fid size
      = (envB.vfsTruncate, [Ev.resolveFid fid, Ev.breakLease, Ev.vfsTruncate])) := by
  have hlo : (if size < fp.inode.i_size then size else fp.inode.i_size)
      = min size fp.inode.i_size := by
    rcases lt_or_ge size fp.inode.i_size with h | h
    · rw [if_pos h, min_eq_left (le_of_lt h)]
    · rw [if_neg (not_lt.mpr h), min_eq_right h]
  have hhi : (if size < fp.inode.i_size then fp.inode.i_size - 1 else size - 1)
      = max size fp.inode.i_size - 1 := by
    rcases lt_or_ge size fp.inode.i_size with h | h
    · rw [if_pos h, max_eq_right (le_of_lt h)]
    · rw [if_neg (not_lt.mpr h), max_eq_left h]
  refine ⟨?_, ⟨?_, ?_⟩, ?_⟩
  · simp [smb_vfs_truncate, hkp]
  · intro hc
    simp [smb_vfs_truncate, hfpL, hopL, hlo, hhi, hc]
  · intro hc
    simp [smb_vfs_truncate, hfpL, hopL, hlo, hhi, hc]
  · simp [smb_vfs_truncate, hfpB, hopB]

/-- Claim C4 witness: the three truncate scenarios at concrete environments
(path "a"; fid 5 of a 10-byte file truncated to 4 with leases disabled; fid 5
with leases enabled). -/
theorem truncate_lock_lease_paths_instance :
    (smb_vfs_truncate tEnvPath (some ['a']) 5 4
      = (tEnvPath.vfsTruncate, [Ev.pathGet 0, Ev.vfsTruncate, Ev.pathPut 0])) ∧
    ((tEnvProbe.lockCheck (min 4 szFile.inode.i_size)
        (max 4 szFile.inode.i_size - 1) true = -EAGAIN →
      smb_vfs_truncate tEnvProbe none 5 4
        = (-EAGAIN, [Ev.resolveFid 5,
            Ev.lockCheck (min 4 szFile.inode.i_size)
              (max 4 szFile.inode.i_size - 1) true])) ∧
     (tEnvProbe.lockCheck (min 4 szFile.inode.i_size)
        (max 4 szFile.inode.i_size - 1) true ≠ -EAGAIN →
      smb_vfs_truncate tEnvProbe none 5 4
        = (tEnvProbe.vfsTruncate, [Ev.resolveFid 5,
            Ev.lockCheck (min 4 szFile.inode.i_size)
              (max 4 szFile.inode.i_size - 1) true,
            Ev.vfsTruncate]))) ∧
    (smb_vfs_truncate tEnvLease none 5 4
      = (tEnvLease.vfsTruncate, [Ev.resolveFid 5, Ev.breakLease, Ev.vfsTruncate])) :=
  truncate_lock_lease_paths tEnvPath tEnvProbe tEnvLease ['a'] 5 4 szFile regFile
    rfl rfl rfl rfl rfl

/-! ## Claim C2 -/

/-- Balance facts for the post-`lock_rename` part of rename: the directory
lock events are exactly one `lock_rename` followed by one `unlock_rename`,
every dentry reference taken is dropped, no path reference is taken, and the
path references dropped are exactly `newpath_p` plus (by-name case)
`oldpath_p`. -/
theorem renameLocked_balance (env : RenameEnv) (src : RenSrc) (newname : FsPath)
    (dop dnp : Nat) :
    lockEvs (renameLocked env src newname dop dnp).2
      = [Ev.lockRename, Ev.unlockRename] ∧
    (∀ d, countEv (Ev.dget d) (renameLocked env src newname dop dnp).2
        = countEv (Ev.dput d) (renameLocked env src newname dop dnp).2) ∧
    (∀ w, countEv (Ev.pathGet w) (renameLocked env src newname dop dnp).2 = 0) ∧
    (∀ w, countEv (Ev.pathPut w) (renameLocked env src newname dop dnp).2
        = countEv (Ev.pathPut w)
            (if src.nameBased = true then [Ev.pathPut 1, Ev.pathPut 0]
             else [Ev.pathPut 1])) := by
  have houtL : ∀ b, lockEvs (renameOut2 b) = [Ev.unlockRename] := by
    intro b; cases b <;> simp [renameOut2, lockEvs]
  have houtG : ∀ b d, countEv (Ev.dget d) (renameOut2 b) = 0 := by
    intro b d; cases b <;> simp [renameOut2, countEv]
  have houtD : ∀ b d, countEv (Ev.dput d) (renameOut2 b) = 0 := by
    intro b d; cases b <;> simp [renameOut2, countEv]
  have houtPG : ∀ b w, countEv (Ev.pathGet w) (renameOut2 b) = 0 := by
    intro b w; cases b <;> simp [renameOut2, countEv]
  have houtPP : ∀ b w, countEv (Ev.pathPut w) (renameOut2 b)
      = countEv (Ev.pathPut w)
          (if b = true then [Ev.pathPut 1, Ev.pathPut 0]
           else [Ev.pathPut 1]) := by
    intro b w; cases b <;> simp [renameOut2, countEv]
  cases src with
  | byName leaf =>
    simp only [renameLocked, RenSrc.nameBased]
    cases hl : env.lookupOne leaf dop with
    | error e =>
      refine ⟨?_, fun d => ?_, fun w => ?_, fun w => ?_⟩ <;>
        simp [lockEvs, countEv, houtL, houtG, houtD, houtPG, houtPP] <;> try ring
    | ok dold =>
      by_cases h2 : env.hasInode dold = false
      · simp only [h2, if_pos rfl]
        refine ⟨?_, fun d => ?_, fun w => ?_, fun w => ?_⟩ <;>
          simp [lockEvs, countEv, houtL, houtG, houtD, houtPG, houtPP] <;> try ring
      · by_cases h3 : env.lockRename dop dnp = some dold
        · simp only [h2, h3, if_neg, if_pos rfl]
          refine ⟨?_, fun d => ?_, fun w => ?_, fun w => ?_⟩ <;>
            simp [h2, lockEvs, countEv, houtL, houtG, houtD, houtPG, houtPP] <;>
            try ring
        · cases h4 : env.lookupOne newname dnp with
          | error e =>
            refine ⟨?_, fun d => ?_, fun w => ?_, fun w => ?_⟩ <;>
              simp [h2, h3, h4, lockEvs, countEv, houtL, houtG, houtD, houtPG,
                houtPP] <;> try ring
          | ok dnew =>
            by_cases h5 : env.lockRename dop dnp = some dnew
            · have hne : ¬ dnew = dold := fun he => h3 (he ▸ h5)
              refine ⟨?_, fun d => ?_, fun w => ?_, fun w => ?_⟩ <;>
                simp [h2, h3, h4, h5, hne, lockEvs, countEv, houtL, houtG,
                  houtD, houtPG, houtPP] <;> try ring
            · refine ⟨?_, fun d => ?_, fun w => ?_, fun w => ?_⟩ <;>
                simp [h2, h3, h4, h5, lockEvs, countEv, houtL, houtG, houtD,
                  houtPG, houtPP] <;> try ring
  | byFid d0 =>
    simp only [renameLocked, RenSrc.nameBased]
    by_cases h2 : env.hasInode d0 = false
    · refine ⟨?_, fun d => ?_, fun w => ?_, fun w => ?_⟩ <;>
        simp [h2, lockEvs, countEv, houtL, houtG, houtD, houtPG, houtPP] <;>
        try ring
    · by_cases h3 : env.lockRename dop dnp = some d0
      · refine ⟨?_, fun d => ?_, fun w => ?_, fun w => ?_⟩ <;>
          simp [h2, h3, lockEvs, countEv, houtL, houtG, houtD, houtPG, houtPP] <;>
          try ring
      · cases h4 : env.lookupOne newname dnp with
        | error e =>
          refine ⟨?_, fun d => ?_, fun w => ?_, fun w => ?_⟩ <;>
            simp [h2, h3, h4, lockEvs, countEv, houtL, houtG, houtD, houtPG,
              houtPP] <;> try ring
        | ok dnew =>
          by_cases h5 : env.lockRename dop dnp = some dnew
          · have hne : ¬ dnew = d0 := fun he => h3 (he ▸ h5)
            refine ⟨?_, fun d => ?_, fun w => ?_, fun w => ?_⟩ <;>
              simp [h2, h3, h4, h5, hne, lockEvs, countEv, houtL, houtG, houtD,
                houtPG, houtPP] <;> try ring
          · refine ⟨?_, fun d => ?_, fun w => ?_, fun w => ?_⟩ <;>
              simp [h2, h3, h4, h5, lockEvs, countEv, houtL, houtG, houtD,
                houtPG, houtPP] <;> try ring

/-- Claim C2: every rename either never reaches `lock_rename` or performs
exactly one `lock_rename` (which takes both parent-directory locks in the
backend's canonical order) followed later by exactly one `unlock_rename`
(which releases them in reverse order); and on every exit path each dentry
reference taken is dropped and each path reference taken is put. -/
theorem rename_lock_pairing_and_ref_release (env : RenameEnv)
    (absOld : Option FsPath) (absNew : FsPath) (oldfid : Nat) :
    (lockEvs (smb_vfs_rename env absOld absNew oldfid).2 = []
      ∨ lockEvs (smb_vfs_rename env absOld absNew oldfid).2
          = [Ev.lockRename, Ev.unlockRename]) ∧
    (∀ d, countEv (Ev.dget d) (smb_vfs_rename env absOld absNew oldfid).2
        = countEv (Ev.dput d) (smb_vfs_rename env absOld absNew oldfid).2) ∧
    (∀ w, countEv (Ev.pathGet w) (smb_vfs_rename env absOld absNew oldfid).2
        = countEv (Ev.pathPut w) (smb_vfs_rename env absOld absNew oldfid).2) := by
  cases absOld with
  | none =>
    cases hfp : env.fidtable oldfid with
    | none =>
      refine ⟨Or.inl ?_, fun d => ?_, fun w => ?_⟩ <;>
        simp [smb_vfs_rename, hfp, lockEvs, countEv]
    | some fp =>
      cases hn : afterLastSlash absNew with
      | none =>
        refine ⟨Or.inl ?_, fun d => ?_, fun w => ?_⟩ <;>
          simp [smb_vfs_rename, hfp, hn, lockEvs, countEv]
      | some leafN =>
        cases hk : env.kernPath absNew with
        | error e =>
          refine ⟨Or.inl ?_, fun d => ?_, fun w => ?_⟩ <;>
            simp [smb_vfs_rename, hfp, hn, hk, lockEvs, countEv]
        | ok dnp =>
          obtain ⟨hL, hG, hPG, hPP⟩ :=
            renameLocked_balance env (RenSrc.byFid fp.dentryId) leafN
              fp.parentId dnp
          refine ⟨Or.inr ?_, fun d => ?_, fun w => ?_⟩ <;>
            simp [smb_vfs_rename, hfp, hn, hk, lockEvs, countEv, hL, hG, hPG,
              hPP, RenSrc.nameBased] <;> try ring
  | some pOld =>
    cases ho : afterLastSlash pOld with
    | none =>
      refine ⟨Or.inl ?_, fun d => ?_, fun w => ?_⟩ <;>
        simp [smb_vfs_rename, ho, lockEvs, countEv]
    | some leafO =>
      cases hko : env.kernPath pOld with
      | error e =>
        refine ⟨Or.inl ?_, fun d => ?_, fun w => ?_⟩ <;>
          simp [smb_vfs_rename, ho, hko, lockEvs, countEv]
      | ok dop =>
        cases hn : afterLastSlash absNew with
        | none =>
          refine ⟨Or.inl ?_, fun d => ?_, fun w => ?_⟩ <;>
            simp [smb_vfs_rename, ho, hko, hn, lockEvs, countEv]
        | some leafN =>
          cases hk : env.kernPath absNew with
          | error e =>
            refine ⟨Or.inl ?_, fun d => ?_, fun w => ?_⟩ <;>
              simp [smb_vfs_rename, ho, hko, hn, hk, lockEvs, countEv]
          | ok dnp =>
            obtain ⟨hL, hG, hPG, hPP⟩ :=
              renameLocked_balance env (RenSrc.byName leafO) leafN dop dnp
            refine ⟨Or.inr ?_, fun d => ?_, fun w => ?_⟩ <;>
              simp [smb_vfs_rename, ho, hko, hn, hk, lockEvs, countEv, hL, hG,
                hPG, hPP, RenSrc.nameBased] <;> try ring

/-! ## Claims C3 and C7 -/

/-- Claim C3: after both parent-directory locks are taken, a resolved source
equal to the trap (common-ancestor) dentry makes rename fail with -EINVAL and
a resolved destination equal to the trap makes it fail with -ENOTEMPTY; in
both cases `vfs_rename` is never invoked, so the filesystem is unchanged. -/
theorem rename_trap_rejections
    (env1 env2 : RenameEnv) (pOld pNew : FsPath) (leafO leafN : FsPath)
    (dop dnp dold dnew : Nat)
    (hsplitO : afterLastSlash pOld = some leafO)
    (hsplitN : afterLastSlash pNew = some leafN)
    (h1po : env1.kernPath pOld = Except.ok dop)
    (h1pn : env1.kernPath pNew = Except.ok dnp)
    (h1lo : env1.lookupOne leafO dop = Except.ok dold)
    (h1inode : env1.hasInode dold = true)
    (h1trap : env1.lockRename dop dnp = some dold)
    (h2po : env2.kernPath pOld = Except.ok dop)
    (h2pn : env2.kernPath pNew = Except.ok dnp)
    (h2lo : env2.lookupOne leafO dop = Except.ok dold)
    (h2inode : env2.hasInode dold = true)
    (h2ln : env2.lookupOne leafN dnp = Except.ok dnew)
    (h2trap : env2.lockRename dop dnp = some dnew)
    (h2ne : dold ≠ dnew) :
    ((smb_vfs_rename env1 (some pOld) pNew 0).1 = -EINVAL ∧
      Ev.vfsRename ∉ (smb_vfs_rename env1 (some pOld) pNew 0).2) ∧
    ((smb_vfs_rename env2 (some pOld) pNew 0).1 = -ENOTEMPTY ∧
      Ev.vfsRename ∉ (smb_vfs_rename env2 (some pOld) pNew 0).2) := by
  have hne2 : ¬ dnew = dold := fun he => h2ne he.symm
  constructor
  · constructor <;>
      simp [smb_vfs_rename, renameLocked, renameOut2, RenSrc.nameBased,
        hsplitO, hsplitN, h1po, h1pn, h1lo, h1inode, h1trap]
  · constructor <;>
      simp [smb_vfs_rename, renameLocked, renameOut2, RenSrc.nameBased,
        hsplitO, hsplitN, h2po, h2pn, h2lo, h2inode, h2ln, h2trap, hne2]

/-- Rename environment where the looked-up source dentry 7 is itself the trap
returned by `lock_rename`. -/
def r3Env1 : RenameEnv :=
  { fidtable := fun _ => none
    kernPath := fun _ => Except.ok 100
    lockRename := fun _ _ => some 7
    lookupOne := fun _ _ => Except.ok 7
    hasInode := fun _ => true
    vfsRename := 0 }

/-- Rename environment where the looked-up destination dentry 8 is the trap. -/
def r3Env2 : RenameEnv :=
  { fidtable := fun _ => none
    kernPath := fun _ => Except.ok 100
    lockRename := fun _ _ => some 8
    lookupOne := fun l _ => if l = ['b'] then Except.ok 7 else Except.ok 8
    hasInode := fun _ => true
    vfsRename := 0 }

/-- Claim C3 witness: renaming "/b" to "/c" when the source (resp. the
destination) dentry coincides with the trap dentry. -/
theorem rename_trap_rejections_instance :
    ((smb_vfs_rename r3Env1 (some ['/', 'b']) ['/', 'c'] 0).1 = -EINVAL ∧
      Ev.vfsRename ∉ (smb_vfs_rename r3Env1 (some ['/', 'b']) ['/', 'c'] 0).2) ∧
    ((smb_vfs_rename r3Env2 (some ['/', 'b']) ['/', 'c'] 0).1 = -ENOTEMPTY ∧
      Ev.vfsRename ∉ (smb_vfs_rename r3Env2 (some ['/', 'b']) ['/', 'c'] 0).2) :=
  rename_trap_rejections r3Env1 r3Env2 ['/', 'b'] ['/', 'c'] ['b'] ['c']
    100 100 7 8 (by decide) (by decide) rfl rfl rfl rfl rfl rfl rfl
    rfl rfl rfl rfl (by decide)

/-- Rename environment for the leaf-name error observations. -/
def r7Env : RenameEnv :=
  { fidtable := fun _ => some regFile
    kernPath := fun _ => Except.ok 100
    lockRename := fun _ _ => none
    lookupOne := fun _ _ => Except.ok 7
    hasInode := fun _ => true
    vfsRename := 0 }

/-- Claim C7 counterexample: the claim says an inextractable leaf name is
rejected with an invalid-name error (one designated error class, per the spec
taxonomy distinct from NotFound).  The code instead returns -ENOENT — the
NotFound code — for a bad source leaf ("a/") and -ENOMEM for a bad destination
leaf ("b/"); the two exits do not even share one error code. -/
theorem rename_leaf_error_codes_cex :
    (smb_vfs_rename r7Env (some ['a', '/']) ['b'] 0).1 = -ENOENT ∧
    (smb_vfs_rename r7Env (some ['/', 'a']) ['b', '/'] 0).1 = -ENOMEM ∧
    -ENOENT ≠ (-ENOMEM : Int) := by
  decide

/-- Claim C7 (amended: the source-leaf failure is reported with the not-found
code -ENOENT and the destination-leaf failure with -ENOMEM): a path whose
final component cannot be extracted (no separator, or empty leaf after the
last separator) is rejected before `lock_rename` is ever called and without
invoking `vfs_rename`, releasing any reference taken up to that point. -/
theorem rename_bad_leaf_early_reject
    (env : RenameEnv) (pOldBad pOldOk pNewBad pNewOk : FsPath) (oldfid : Nat)
    (leafO : FsPath) (dop : Nat) (fp : FileHandle)
    (hOB : afterLastSlash pOldBad = none)
    (hNB : afterLastSlash pNewBad = none)
    (hOO : afterLastSlash pOldOk = some leafO)
    (hkp : env.kernPath pOldOk = Except.ok dop)
    (hfp : env.fidtable oldfid = some fp) :
    (smb_vfs_rename env (some pOldBad) pNewOk oldfid = (-ENOENT, [])) ∧
    (smb_vfs_rename env (some pOldOk) pNewBad oldfid
      = (-ENOMEM, [Ev.pathGet 0, Ev.pathPut 0])) ∧
    (smb_vfs_rename env none pNewBad oldfid
      = (-ENOMEM, [Ev.resolveFid oldfid])) := by
  refine ⟨?_, ?_, ?_⟩
  · simp [smb_vfs_rename, hOB]
  · simp [smb_vfs_rename, hOO, hkp, hNB]
  · simp [smb_vfs_rename, hfp, hNB]

/-- Claim C7 witness: source "/b/" (multi-component path with trailing
separator, the paradigmatic empty-leaf case), source "/a" with destination
"/c/" (bad leaf), and rename-by-fid with destination "/c/". -/
theorem rename_bad_leaf_early_reject_instance :
    (smb_vfs_rename r7Env (some ['/', 'b', '/']) ['b'] 3 = (-ENOENT, [])) ∧
    (smb_vfs_rename r7Env (some ['/', 'a']) ['/', 'c', '/'] 3
      = (-ENOMEM, [Ev.pathGet 0, Ev.pathPut 0])) ∧
    (smb_vfs_rename r7Env none ['/', 'c', '/'] 3
      = (-ENOMEM, [Ev.resolveFid 3])) :=
  rename_bad_leaf_early_reject r7Env ['/', 'b', '/'] ['/', 'a'] ['/', 'c', '/']
    ['b'] 3 ['a'] 100 regFile (by decide) (by decide) (by decide) rfl rfl

/-- Concrete checks of the leaf extraction against the strrchr semantics of
the source: every trailing-separator path has no extractable leaf, also when
earlier separators are present; slashless paths have none either; otherwise
the component after the last slash is returned. -/
theorem afterLastSlash_checks :
    afterLastSlash ['/', 'b', '/'] = none ∧
    afterLastSlash ['a', '/', 'b', '/'] = none ∧
    afterLastSlash ['a', '/'] = none ∧
    afterLastSlash ['b'] = none ∧
    afterLastSlash ['/', '/', 'b'] = some ['b'] ∧
    afterLastSlash ['a', '/', 'b'] = some ['b'] := by
  decide
